import Mathlib

/-!
Verification of the monitor health-check core of the mcpmon backend.

The development shallowly embeds the relevant JavaScript sources:

* `src/services/mcp-client.js` — the protocol prober (`testMCPConnection`),
  the retry wrapper (`testMCPConnectionWithRetry`), the session handshake
  (`initializeMCPSession`) and the session-based health check
  (`testMCPConnectionWithTools`);
* the session manager (`getSession` / `setSession` / `clearSession`);
* the Monitor model method `calculateUptime`;
* the email service predicate `shouldSendDailyReminder`;
* `src/services/monitoring.js` — the per-monitor state machine
  (`checkSingleMonitor`), covering both the normal verdict path and the
  exception (catch) path;
* `src/services/scheduler.js` and `src/services/securityScheduler.js` —
  the timer callbacks, modelled as tick-decision functions plus a small
  event semantics counting in-flight tick executions.

Network behaviour (what `fetch` did) is passed in as explicit data; wall
clock instants are integer millisecond timestamps; JavaScript numbers that
hold counters are `Nat`; `toFixed(2)` is modelled as rounding to a rational
with two decimal places.  Outbound notification dispatch (email / SMS) is
modelled as succeeding with the owning user present; only the decision
logic and the bookkeeping writes are in scope, matching the spec, which
treats dispatch as a fire-and-forget external collaborator.
-/

/-- JavaScript falsiness of a nullable string: `null` / `undefined` / `""`. -/
def strFalsy : Option String → Bool
  | none => true
  | some s => s.isEmpty

/-- JavaScript `a || b` on nullable strings (falsy left operand selects `b`,
with an all-falsy chain ending in `null`). -/
def jsOr (a b : Option String) : Option String :=
  if strFalsy a then (if strFalsy b then none else b) else a

/-- JavaScript `s.includes(pat)` (substring containment). -/
def includesStr (s pat : String) : Bool :=
  decide (pat.data <:+: s.data)

/-- JavaScript `s || dflt` for a nullable string with a non-empty default. -/
def jsOrDefault (a : Option String) (dflt : String) : String :=
  match jsOr a (some dflt) with
  | some s => s
  | none => dflt

/-- The `Response.ok` predicate of `fetch`: status in the range 200-299. -/
def httpOk (status : Nat) : Bool :=
  200 ≤ status ∧ status ≤ 299

/-- The `contentType && contentType.includes(pat)` test used by the client. -/
def ctIncludes (contentType : Option String) (pat : String) : Bool :=
  match contentType with
  | none => false
  | some ct => includesStr ct pat

/-! ## Protocol prober: `testMCPConnection` (src/services/mcp-client.js) -/

/-- Connection-level failure of the `fetch` call, as discriminated by the
catch block of `testMCPConnection` (`error.name` / `error.code`).  `otherErr`
carries the raw `error.message` of an unrecognized failure. -/
inductive FetchError
  | timeoutAbort
  | dnsNotFound
  | connRefused
  | connReset
  | connTimeout
  | otherErr (msg : String)
deriving DecidableEq, Repr

/-- The error message produced by the catch block of `testMCPConnection`
for each recognized failure kind (timeout messages embed the configured
timeout in seconds). -/
def fetchErrorMessage (timeoutSec : Nat) : FetchError → String
  | .timeoutAbort => "Request timeout after " ++ toString timeoutSec ++ " seconds"
  | .dnsNotFound => "DNS resolution failed - host not found"
  | .connRefused => "Connection refused"
  | .connReset => "Connection reset"
  | .connTimeout => "Connection timeout"
  | .otherErr msg => msg

/-- An HTTP response as inspected by `testMCPConnection`: status line,
content type, and the outcome of `response.json()` — `Except.error` when
parsing threw, otherwise the value of the `jsonrpc` field of the parsed
body (`none` when the field is absent or not the string the code compares
against). -/
structure HttpResponse where
  status : Nat
  statusText : String
  contentType : Option String
  jsonParse : Except String (Option String)
deriving Repr

/-- The verdict object returned by `testMCPConnection` (the response-time
field is timing noise and is not modelled). -/
structure ProbeResult where
  success : Bool
  statusCode : Option Nat := none
  warning : Option String := none
  error : Option String := none
deriving DecidableEq, Repr

/-- Shallow embedding of `testMCPConnection`: classify one `fetch` outcome.
Any response with a non-ok status is a success with an `HTTP <status>`
warning; an ok JSON response must parse and carry `jsonrpc = "2.0"`;
ok responses with other content types fail with a content-type detail;
connection-level failures map through `fetchErrorMessage`. -/
def testMCPConnection (timeoutSec : Nat) (net : Except FetchError HttpResponse) :
    ProbeResult :=
  match net with
  | .error e =>
    { success := false, error := some (fetchErrorMessage timeoutSec e) }
  | .ok r =>
    if ¬ httpOk r.status then
      { success := true, statusCode := some r.status,
        warning := some ("HTTP " ++ toString r.status ++ ": " ++ r.statusText) }
    else if ctIncludes r.contentType "application/json" then
      match r.jsonParse with
      | .error msg =>
        { success := false, error := some ("Failed to parse JSON response: " ++ msg) }
      | .ok v =>
        if v = some "2.0" then { success := true }
        else { success := false, error := some "Invalid JSON-RPC response format" }
    else
      match r.contentType with
      | some ct => { success := false, error := some ("Unsupported content type: " ++ ct) }
      | none => { success := false, error := some "Missing content-type header" }

/-! ## Retry wrapper: `testMCPConnectionWithRetry` -/

/-- The back-off delay awaited after a failed attempt:
`Math.min(1000 * Math.pow(2, attempt - 1), 5000)`. -/
def backoffDelay (attempt : Nat) : Nat :=
  min (1000 * 2 ^ (attempt - 1)) 5000

/-- Result of the retry wrapper; the sleeps performed between attempts are
collected as an explicit trace (in order). -/
structure RetryResult where
  result : ProbeResult
  attempts : Nat
  delays : List Nat
deriving DecidableEq, Repr

/-- One pass of the retry loop of `testMCPConnectionWithRetry`, from
`attempt` up to `maxAttempts`; `prober i` is the verdict of the i-th call
to `testMCPConnection`. -/
def retryGo (prober : Nat → ProbeResult) (maxAttempts attempt : Nat) : RetryResult :=
  let r := prober attempt
  if r.success then ⟨r, attempt, []⟩
  else if h : attempt < maxAttempts then
    let rest := retryGo prober maxAttempts (attempt + 1)
    ⟨rest.result, rest.attempts, backoffDelay attempt :: rest.delays⟩
  else ⟨r, maxAttempts, []⟩
termination_by maxAttempts - attempt
decreasing_by omega

/-- Shallow embedding of `testMCPConnectionWithRetry`; `retryAttempts = 0`
stands for a falsy `monitor.retryAttempts`, defaulted to 3 by `|| 3`. -/
def testMCPConnectionWithRetry (prober : Nat → ProbeResult) (retryAttempts : Nat) :
    RetryResult :=
  retryGo prober (if retryAttempts = 0 then 3 else retryAttempts) 1

/-! ## Session manager (MCP Session Manager service) -/

/-- One entry of the in-memory session cache:
`{ sessionId, capabilities, url, expiresAt, createdAt }`.  `setSession` only
stores non-falsy session ids, so the stored id is a plain string. -/
structure SessionEntry where
  sessionId : String
  capabilities : Option String
  url : Option String
  expiresAt : Int
  createdAt : Int
deriving DecidableEq, Repr

/-- The session cache, a `Map` keyed by the monitor id rendered as a string;
modelled as an association list with at most one binding per key. -/
abbrev SessionCache := List (String × SessionEntry)

/-- Lookup in the association list backing the cache (`Map.get`). -/
def findEntry : SessionCache → String → Option SessionEntry
  | [], _ => none
  | (k, e) :: rest, id => if k = id then some e else findEntry rest id

/-- Deletion from the association list backing the cache (`Map.delete`). -/
def removeEntry : SessionCache → String → SessionCache
  | [], _ => []
  | (k, e) :: rest, id =>
    if k = id then removeEntry rest id else (k, e) :: removeEntry rest id

/-- The default session TTL: one hour in milliseconds. -/
def SESSION_TTL : Int := 60 * 60 * 1000

/-- Shallow embedding of `getSession`: a falsy monitor id or a missing entry
gives `null`; an entry whose `expiresAt` lies strictly in the past is
deleted on read and reported missing.  Returns the looked-up entry together
with the possibly-shrunk cache. -/
def getSession (now : Int) (cache : SessionCache) (monitorId : Option String) :
    Option SessionEntry × SessionCache :=
  match monitorId with
  | none => (none, cache)
  | some id =>
    match findEntry cache id with
    | none => (none, cache)
    | some s =>
      if now > s.expiresAt then (none, removeEntry cache id)
      else (some s, cache)

/-- Shallow embedding of `setSession`: a falsy monitor id or session id
leaves the cache untouched; otherwise the binding for the monitor is
replaced by a fresh entry expiring `ttl` milliseconds from now. -/
def setSession (now : Int) (cache : SessionCache) (monitorId sessionId : Option String)
    (capabilities : Option String) (url : Option String) (ttl : Int) : SessionCache :=
  if strFalsy monitorId ∨ strFalsy sessionId then cache
  else
    match monitorId, sessionId with
    | some id, some sid =>
      (id, { sessionId := sid, capabilities := capabilities, url := url,
             expiresAt := now + ttl, createdAt := now }) :: removeEntry cache id
    | _, _ => cache

/-- Shallow embedding of `clearSession`: delete the binding of a monitor. -/
def clearSession (cache : SessionCache) (monitorId : Option String) : SessionCache :=
  match monitorId with
  | none => cache
  | some id => removeEntry cache id

/-! ## Session handshake: `initializeMCPSession` -/

/-- A parsed JSON-RPC message, as inspected by the handshake: whether an
`error` member is present (with its optional `message`), and the
`result.sessionId` / `result.capabilities` members. -/
structure RpcEnvelope where
  hasError : Bool
  errorMessage : Option String
  resultSessionId : Option String
  resultCapabilities : Option String
deriving DecidableEq, Repr

/-- The response to the `initialize` POST, as inspected by
`initializeMCPSession`: status line, content type, the `Mcp-Session-Id`
header, the first stream message when the body is SSE-framed (`none` when
`readFirstSSEMessage` found no valid message), and the `response.json()`
outcome otherwise. -/
structure InitHttpResponse where
  status : Nat
  statusText : String
  contentType : Option String
  headerSessionId : Option String
  sseFirst : Option RpcEnvelope
  jsonParse : Except String RpcEnvelope
deriving Repr

/-- The result object of `initializeMCPSession`. -/
structure SessionResult where
  success : Bool
  sessionId : Option String := none
  capabilities : Option String := none
  error : Option String := none
deriving DecidableEq, Repr

/-- Shallow embedding of `initializeMCPSession`: every throw inside the
function lands in its catch block, which reports `success: false` with the
exception message.  A non-ok initialize response throws
`HTTP <status>: <statusText>`; an SSE body must yield a first message; a
body carrying an `error` member throws its message (or
`Initialize failed`); otherwise the session id is taken from the
`Mcp-Session-Id` header or the `result.sessionId` field (either may be
absent), and the `initialized` notification POST (`notifyFetch`) must
resolve. -/
def initializeMCPSession (net : Except String InitHttpResponse)
    (notifyFetch : Except String Unit) : SessionResult :=
  match net with
  | .error msg => { success := false, error := some msg }
  | .ok r =>
    if ¬ httpOk r.status then
      { success := false,
        error := some ("HTTP " ++ toString r.status ++ ": " ++ r.statusText) }
    else
      match
        (if ctIncludes r.contentType "text/event-stream" then
          match r.sseFirst with
          | none => Except.error "Failed to read SSE message"
          | some env => Except.ok env
        else r.jsonParse : Except String RpcEnvelope)
      with
      | .error msg => { success := false, error := some msg }
      | .ok env =>
        if env.hasError then
          { success := false,
            error := some (jsOrDefault env.errorMessage "Initialize failed") }
        else
          match notifyFetch with
          | .error msg => { success := false, error := some msg }
          | .ok _ =>
            { success := true,
              sessionId := jsOr r.headerSessionId env.resultSessionId,
              capabilities := env.resultCapabilities }

/-! ## Session-based health check: `testMCPConnectionWithTools` -/

/-- The result object of `discoverTools` (tool names only). -/
structure ToolsResult where
  success : Bool
  tools : List String := []
  error : Option String := none
deriving DecidableEq, Repr

/-- The network-determined outcomes of the up-to-four remote interactions a
single `testMCPConnectionWithTools` call can perform: first handshake,
first tool discovery, re-handshake, retried tool discovery.  Oracles for
calls the control flow never reaches are simply unused. -/
structure SessionEnv where
  init1 : SessionResult
  tools1 : ToolsResult
  init2 : SessionResult
  tools2 : ToolsResult
deriving DecidableEq, Repr

/-- The monitor fields consulted by `testMCPConnectionWithTools`. -/
structure MonitorConn where
  id : String
  url : String
  toolsSyncEnabled : Bool
deriving DecidableEq, Repr

/-- Outcome of one `testMCPConnectionWithTools` call: the verdict fields,
the session cache after all `get` / `set` / `clear` effects, and whether an
`initializeMCPSession` handshake was performed during the call. -/
structure ToolsCheckOutput where
  success : Bool
  error : Option String
  tools : List String
  sessionId : Option String
  cache : SessionCache
  didHandshake : Bool

/-- The test applied to a failed tool discovery to decide whether the error
looks session-related:
`error.includes("session") || error.includes("401") || error.includes("HTTP")`. -/
def sessionErrorLike (error : Option String) : Bool :=
  let e := match error with | some s => s | none => ""
  includesStr e "session" ∨ includesStr e "401" ∨ includesStr e "HTTP"

/-- The tool-discovery phase of `testMCPConnectionWithTools`, entered with
the session id and cache produced by the session phase: a session-looking
discovery failure clears the session, re-handshakes once (`init2`) and
retries discovery (`tools2`); a failure that does not look session-related
is only logged and the check still succeeds. -/
def toolsPhase (now : Int) (env : SessionEnv) (mon : MonitorConn)
    (sessionId : Option String) (cache : SessionCache) (didHandshake : Bool) :
    ToolsCheckOutput :=
  if ¬ mon.toolsSyncEnabled then
    { success := true, error := none, tools := [], sessionId := sessionId,
      cache := cache, didHandshake := didHandshake }
  else if env.tools1.success then
    { success := true, error := none, tools := env.tools1.tools,
      sessionId := sessionId, cache := cache, didHandshake := didHandshake }
  else if sessionErrorLike env.tools1.error then
    let cache1 := clearSession cache (some mon.id)
    if env.init2.success then
      let sid2 := env.init2.sessionId
      let cache2 := setSession now cache1 (some mon.id) sid2 env.init2.capabilities
        (some mon.url) SESSION_TTL
      if env.tools2.success then
        { success := true, error := none, tools := env.tools2.tools,
          sessionId := sid2, cache := cache2, didHandshake := true }
      else
        { success := false,
          error := some (jsOrDefault env.tools2.error "Tool discovery failed after retry"),
          tools := [], sessionId := sid2, cache := cache2, didHandshake := true }
    else
      { success := false,
        error := some (jsOrDefault env.init2.error "Failed to reinitialize session"),
        tools := [], sessionId := sessionId, cache := cache1, didHandshake := true }
  else
    { success := true, error := none, tools := [], sessionId := sessionId,
      cache := cache, didHandshake := didHandshake }

/-- Shallow embedding of `testMCPConnectionWithTools`: reuse a cached
session when its bound url matches the monitor url (the cached session
itself counts as the health signal); otherwise clear any url-mismatched
entry, perform the handshake (`init1`), fail the check when it fails, cache
its session id (a no-op when the id is absent), and proceed to the
tool-discovery phase. -/
def testMCPConnectionWithTools (now : Int) (env : SessionEnv)
    (cache : SessionCache) (mon : MonitorConn) : ToolsCheckOutput :=
  let got := getSession now cache (some mon.id)
  match got.1 with
  | some entry =>
    if entry.url = some mon.url then
      toolsPhase now env mon (some entry.sessionId) got.2 false
    else
      let cache1 := clearSession got.2 (some mon.id)
      if env.init1.success then
        let cache2 := setSession now cache1 (some mon.id) env.init1.sessionId
          env.init1.capabilities (some mon.url) SESSION_TTL
        toolsPhase now env mon env.init1.sessionId cache2 true
      else
        { success := false,
          error := some (jsOrDefault env.init1.error "Failed to initialize MCP session"),
          tools := [], sessionId := env.init1.sessionId, cache := cache1,
          didHandshake := true }
  | none =>
    if env.init1.success then
      let cache2 := setSession now got.2 (some mon.id) env.init1.sessionId
        env.init1.capabilities (some mon.url) SESSION_TTL
      toolsPhase now env mon env.init1.sessionId cache2 true
    else
      { success := false,
        error := some (jsOrDefault env.init1.error "Failed to initialize MCP session"),
        tools := [], sessionId := env.init1.sessionId, cache := got.2,
        didHandshake := true }

/-- A sequence of scheduled checks of one sse-session monitor: the cache is
threaded from check to check and the per-check handshake flags are
collected in order. -/
def runToolsChecks (now : Int) (mon : MonitorConn) (cache : SessionCache) :
    List SessionEnv → SessionCache × List Bool
  | [] => (cache, [])
  | e :: rest =>
    let out := testMCPConnectionWithTools now e cache mon
    let next := runToolsChecks now mon out.cache rest
    (next.1, out.didHandshake :: next.2)

/-! ## Monitor model: `calculateUptime` -/

/-- JavaScript `Number.prototype.toFixed(2)`, read back as a rational:
round to the nearest multiple of 1/100, ties towards the larger value. -/
def toFixed2 (q : ℚ) : ℚ :=
  (round (q * 100) : ℤ) / 100

/-- Shallow embedding of the Monitor method `calculateUptime`: 100 when no
check has run, otherwise the successful-check ratio as a percentage with
two decimal places. -/
def calculateUptime (totalChecks failedChecks : Nat) : ℚ :=
  if totalChecks = 0 then 100
  else toFixed2 ((((totalChecks : ℚ) - failedChecks) / totalChecks) * 100)

/-- Modelled from the spec: `round2`, rounding a percentage to two decimal
places, used by the spec formula
`uptimePercentage = round2((totalChecks - failedChecks) / totalChecks * 100)`. -/
def round2 (q : ℚ) : ℚ :=
  (round (q * 100) : ℤ) / 100

/-- Modelled from the spec: the uptime-percentage formula of the data
model, `round2((totalChecks - failedChecks) / totalChecks * 100)`, defined
as 100 when `totalChecks == 0`. -/
def specUptimePercentage (totalChecks failedChecks : Nat) : ℚ :=
  if totalChecks = 0 then 100
  else round2 ((((totalChecks : ℚ) - failedChecks) / totalChecks) * 100)

/-! ## Monitor state machine (src/services/monitoring.js) -/

/-- The persisted monitor status. -/
inductive MonitorStatus
  | online
  | offline
  | unknown
  | paused
deriving DecidableEq, Repr

/-- The monitor fields read and written by `checkSingleMonitor` (the
running average of response times is pure timing bookkeeping and is not
modelled). -/
structure MonitorState where
  status : MonitorStatus
  totalChecks : Nat
  failedChecks : Nat
  consecutiveFailures : Nat
  alertsEnabled : Bool
  notifyOnRecovery : Bool
  alertsSentCount : Nat
  lastAlertSentAt : Option Int
  lastError : Option String
  lastCheckedAt : Option Int
  lastUptime : Option Int
  lastDowntime : Option Int
  lastStatusChangeAt : Option Int
  uptimePercentage : ℚ
deriving DecidableEq, Repr

/-- The outcome of the prober pipeline for one check: either
`testMCPConnection` resolved with a verdict, or an exception escaped the
pipeline and landed in the catch block of `checkSingleMonitor` (carrying
`error.message`). -/
inductive CheckOutcome
  | result (r : ProbeResult)
  | crash (msg : String)
deriving DecidableEq, Repr

/-- The notifications dispatched during one check (dispatch is modelled as
succeeding, with the owning user present). -/
structure CheckEffects where
  sentRecoveryAlert : Bool
  sentInitialDownAlert : Bool
  sentDailyReminder : Bool
deriving DecidableEq, Repr

/-- Shallow embedding of `shouldSendDailyReminder` (email service): the
monitor must be offline with alerts enabled, fewer than 4 alerts sent for
the episode, at least one alert already sent, and at least 24 hours elapsed
since `lastAlertSentAt`.  The source computes
`(Date.now() - lastAlertSentAt) / 3600000 >= 24`; over exact arithmetic on
millisecond timestamps this is `86400000 <= now - t`. -/
def shouldSendDailyReminder (now : Int) (m : MonitorState) : Bool :=
  if m.status ≠ MonitorStatus.offline then false
  else if ¬ m.alertsEnabled then false
  else if 4 ≤ m.alertsSentCount then false
  else
    match m.lastAlertSentAt with
    | none => false
    | some t => if m.alertsSentCount = 0 then false else decide (86400000 ≤ now - t)

/-- The verdict-driven part of the try block of `checkSingleMonitor`:
counter updates, status transition, transition-edge bookkeeping, and the
initial downtime alert decision
(`consecutiveFailures >= 2 && previousConsecutiveFailures < 2`, gated by
`alertsEnabled`).  Returns the updated state, the recovery-alert flag and
the initial-downtime-alert flag. -/
def applyVerdict (now : Int) (m : MonitorState) (r : ProbeResult) :
    MonitorState × Bool × Bool :=
  let prevStatus := m.status
  let prevCF := m.consecutiveFailures
  let m1 := { m with lastCheckedAt := some now, totalChecks := m.totalChecks + 1 }
  if r.success then
    let wasOffline := decide (prevStatus = MonitorStatus.offline)
    let m2 := { m1 with
      status := MonitorStatus.online, lastUptime := some now,
      consecutiveFailures := 0 }
    let sentRecovery := wasOffline && m2.alertsEnabled && m2.notifyOnRecovery
    let m3 := if wasOffline then
        { m2 with
          lastStatusChangeAt := some now, alertsSentCount := 0,
          lastAlertSentAt := none }
      else m2
    let m4 := { m3 with lastError := if strFalsy r.warning then none else r.warning }
    (m4, sentRecovery, false)
  else
    let wasOnline := decide (prevStatus = MonitorStatus.online)
    let m2 := { m1 with
      status := MonitorStatus.offline,
      lastError := some (jsOrDefault r.error "Connection failed"),
      failedChecks := m1.failedChecks + 1,
      consecutiveFailures := prevCF + 1 }
    let m3 := if wasOnline then
        { m2 with lastStatusChangeAt := some now, lastDowntime := some now }
      else m2
    let shouldSendInitialAlert :=
      decide (2 ≤ m3.consecutiveFailures) && decide (prevCF < 2)
    let fire := shouldSendInitialAlert && m3.alertsEnabled
    let m4 := if fire then
        { m3 with lastAlertSentAt := some now, alertsSentCount := 1 }
      else m3
    (m4, false, fire)

/-- The daily-reminder block of `checkSingleMonitor`: when the monitor is
still offline and `shouldSendDailyReminder` agrees, a reminder is
dispatched, `lastAlertSentAt` moves to now and `alertsSentCount` grows. -/
def applyReminder (now : Int) (m : MonitorState) : MonitorState × Bool :=
  if m.status = MonitorStatus.offline ∧ shouldSendDailyReminder now m = true then
    ({ m with
      lastAlertSentAt := some now,
      alertsSentCount := m.alertsSentCount + 1 }, true)
  else (m, false)

/-- Shallow embedding of `checkSingleMonitor` for one check outcome.  The
`result` case is the try block: verdict bookkeeping, daily-reminder block,
then `uptimePercentage = monitor.calculateUptime()`.  The `crash` case is
the catch block: the same counter and status bookkeeping with the exception
message as `lastError`, a status-change stamp when the monitor was not
already offline, and no alert dispatch of any kind. -/
def checkSingleMonitor (now : Int) (m : MonitorState) (o : CheckOutcome) :
    MonitorState × CheckEffects :=
  match o with
  | .result r =>
    let v := applyVerdict now m r
    let rem := applyReminder now v.1
    let m2 := { rem.1 with
      uptimePercentage := calculateUptime rem.1.totalChecks rem.1.failedChecks }
    (m2, { sentRecoveryAlert := v.2.1, sentInitialDownAlert := v.2.2,
           sentDailyReminder := rem.2 })
  | .crash msg =>
    let m1 := { m with
      lastCheckedAt := some now,
      totalChecks := m.totalChecks + 1,
      status := MonitorStatus.offline,
      lastError := some msg,
      failedChecks := m.failedChecks + 1,
      consecutiveFailures := m.consecutiveFailures + 1 }
    let m2 := if m.status ≠ MonitorStatus.offline then
        { m1 with lastStatusChangeAt := some now, lastDowntime := some now }
      else m1
    let m3 := { m2 with
      uptimePercentage := calculateUptime m2.totalChecks m2.failedChecks }
    (m3, { sentRecoveryAlert := false, sentInitialDownAlert := false,
           sentDailyReminder := false })

/-- A check outcome counts as reachable exactly when the prober resolved
with a successful verdict. -/
def isReachable : CheckOutcome → Bool
  | .result r => r.success
  | .crash _ => false

/-- The monitor state after a sequence of checks. -/
def runChecks (now : Int) (m : MonitorState) (os : List CheckOutcome) : MonitorState :=
  os.foldl (fun s o => (checkSingleMonitor now s o).1) m

/-- The length of the trailing run of unreachable outcomes of a check
sequence. -/
def trailingFailures (os : List CheckOutcome) : Nat :=
  (os.reverse.takeWhile (fun o => ! isReachable o)).length

/-! ## Schedulers (src/services/scheduler.js, src/services/securityScheduler.js) -/

/-- What a timer callback does when it fires. -/
inductive TickAction
  | start
  | skip
deriving DecidableEq, Repr

/-- Transcribed from the `setInterval` callback installed by
`startScheduler` in scheduler.js: its body invokes `checkAllMonitors`
unconditionally — it consults no in-flight flag, so the decision does not
depend on whether a previous tick is still running. -/
def monitorTickAction (_prevTickStillRunning : Bool) : TickAction :=
  TickAction.start

/-- Transcribed from the cron callback installed by
`startSecurityScheduler` in securityScheduler.js: when `isRunning` is set
the callback logs `Previous scan still running, skipping...` and returns,
otherwise it sets `isRunning` and starts the scan (clearing the flag in a
`finally`). -/
def securityTickAction (isRunningFlag : Bool) : TickAction :=
  if isRunningFlag then TickAction.skip else TickAction.start

/-- Events observed by a scheduler cadence: the timer fires, or one
previously started tick execution completes. -/
inductive SchedEvent
  | fire
  | complete
deriving DecidableEq, Repr

/-- Count of tick executions in flight, advanced by one event: a firing
timer starts one more execution iff the callback decides `start` given
whether an execution is in flight; a completion retires one. -/
def schedStep (action : Bool → TickAction) (inFlight : Nat) : SchedEvent → Nat
  | .fire =>
    match action (decide (0 < inFlight)) with
    | .start => inFlight + 1
    | .skip => inFlight
  | .complete => inFlight - 1

/-- In-flight tick executions after a sequence of events, starting idle. -/
def runSched (action : Bool → TickAction) (events : List SchedEvent) : Nat :=
  events.foldl (schedStep action) 0

/-! ## Concrete states used by counterexamples and witnesses -/

/-- A fresh monitor as created by the Monitor schema defaults. -/
def baseMonitor : MonitorState :=
  { status := MonitorStatus.unknown, totalChecks := 0, failedChecks := 0,
    consecutiveFailures := 0, alertsEnabled := true, notifyOnRecovery := true,
    alertsSentCount := 0, lastAlertSentAt := none, lastError := none,
    lastCheckedAt := none, lastUptime := none, lastDowntime := none,
    lastStatusChangeAt := none, uptimePercentage := 100 }

/-- A monitor with alerts enabled that has just suffered its first failure
of an episode: the next unreachable check makes `consecutiveFailures`
cross from 1 to 2. -/
def crashCrossState : MonitorState :=
  { baseMonitor with
    status := MonitorStatus.offline, totalChecks := 5, failedChecks := 3,
    consecutiveFailures := 1 }

/-- An offline monitor one day past its initial downtime alert, due for the
first daily reminder. -/
def reminderDueState : MonitorState :=
  { baseMonitor with
    status := MonitorStatus.offline, totalChecks := 9, failedChecks := 4,
    consecutiveFailures := 3, alertsSentCount := 1, lastAlertSentAt := some 0 }

/-- A probe verdict for a refused connection, as produced by
`testMCPConnection`. -/
def connRefusedVerdict : ProbeResult :=
  { success := false, error := some "Connection refused" }

/-- The initialize response of an sse-session server that rejects
session-less requests with a 400-class `session required` error. -/
def sessionRequired400 : InitHttpResponse :=
  { status := 400, statusText := "Bad Request",
    contentType := some "application/json", headerSessionId := none,
    sseFirst := none,
    jsonParse := Except.ok
      { hasError := true,
        errorMessage := some "Bad Request: Mcp-Session-Id header is required",
        resultSessionId := none, resultCapabilities := none } }

/-- An sse-session monitor with tool sync disabled. -/
def monA : MonitorConn :=
  { id := "m1", url := "https://example.com/mcp", toolsSyncEnabled := false }

/-- A check environment whose handshakes all hit the 400 `session
required` rejection. -/
def env400 : SessionEnv :=
  { init1 := initializeMCPSession (Except.ok sessionRequired400) (Except.ok ()),
    tools1 := { success := true },
    init2 := initializeMCPSession (Except.ok sessionRequired400) (Except.ok ()),
    tools2 := { success := true } }

/-- A check environment whose handshakes succeed but carry no session id. -/
def envNoSid : SessionEnv :=
  { init1 := { success := true, sessionId := none },
    tools1 := { success := true },
    init2 := { success := true, sessionId := none },
    tools2 := { success := true } }

/-- A 200 response whose content type is plain HTML. -/
def htmlResponse : HttpResponse :=
  { status := 200, statusText := "OK", contentType := some "text/html",
    jsonParse := Except.error "Unexpected token < in JSON at position 0" }

/-! ## Helper lemmas -/

/-- The guarded security cadence keeps at most one tick execution in
flight, whatever the event sequence. -/
theorem schedStep_security_le_one :
    ∀ (events : List SchedEvent) (n : Nat), n ≤ 1 →
      List.foldl (schedStep securityTickAction) n events ≤ 1 := by
  intro events
  induction events with
  | nil => intro n h; simpa using h
  | cons e rest ih =>
    intro n h
    rw [List.foldl_cons]
    refine ih _ ?_
    cases e with
    | fire =>
      cases n with
      | zero => simp [schedStep, securityTickAction]
      | succ k =>
        have hk : k = 0 := by omega
        subst hk
        simp [schedStep, securityTickAction]
    | complete =>
      simp only [schedStep]
      omega

/-- Every path through `checkSingleMonitor` increments `totalChecks` by
exactly one. -/
theorem checkSingleMonitor_totalChecks (now : Int) (s : MonitorState) (o : CheckOutcome) :
    (checkSingleMonitor now s o).1.totalChecks = s.totalChecks + 1 := by
  cases o with
  | result r =>
    simp only [checkSingleMonitor, applyVerdict, applyReminder]
    split_ifs <;> simp_all
  | crash msg =>
    simp only [checkSingleMonitor]
    split_ifs <;> simp_all

/-- Every path through `checkSingleMonitor` either resets
`consecutiveFailures` to zero (reachable verdict) or increments it by one
(unreachable verdict or escaped exception). -/
theorem checkSingleMonitor_consecutiveFailures (now : Int) (s : MonitorState)
    (o : CheckOutcome) :
    (checkSingleMonitor now s o).1.consecutiveFailures =
      if isReachable o = true then 0 else s.consecutiveFailures + 1 := by
  cases o with
  | result r =>
    cases hr : r.success with
    | true =>
      simp only [checkSingleMonitor, applyVerdict, applyReminder, isReachable, hr]
      split_ifs <;> simp_all
    | false =>
      simp only [checkSingleMonitor, applyVerdict, applyReminder, isReachable, hr]
      split_ifs <;> simp_all
  | crash msg =>
    simp only [checkSingleMonitor, isReachable]
    split_ifs <;> simp_all

/-- Appending one outcome extends or resets the trailing failure run. -/
theorem trailingFailures_append (os : List CheckOutcome) (o : CheckOutcome) :
    trailingFailures (os ++ [o]) =
      if isReachable o = true then 0 else trailingFailures os + 1 := by
  cases h : isReachable o with
  | true =>
    simp [trailingFailures, List.reverse_append, List.takeWhile, h]
  | false =>
    simp [trailingFailures, List.reverse_append, List.takeWhile, h]

/-! ## Claim theorems -/

/-- C1 counterexample: the claim asserts every cadence skips a tick that
fires while the previous one is still running.  The 1-minute monitor-check
cadence of scheduler.js has no in-flight guard: its callback decides to
start even when an execution is in flight, and after two timer fires with
no completion two executions of `checkAllMonitors` overlap. -/
theorem scheduler_tick_overlap_counterexample :
    monitorTickAction true = TickAction.start ∧
    runSched monitorTickAction [SchedEvent.fire, SchedEvent.fire] = 2 :=
  ⟨rfl, rfl⟩

/-- C1 amended: only the 30-minute security-scan cadence
(securityScheduler.js) guards against overlap — its callback skips exactly
when a scan is already running, and its in-flight count never exceeds one
under any fire/completion sequence; the monitor-check cadence starts a new
tick unconditionally. -/
theorem scheduler_tick_guard_amended :
    (∀ b, securityTickAction b = TickAction.skip ↔ b = true) ∧
    (∀ events, runSched securityTickAction events ≤ 1) ∧
    (∀ b, monitorTickAction b = TickAction.start) := by
  refine ⟨?_, ?_, fun b => rfl⟩
  · intro b
    cases b <;> simp [securityTickAction]
  · intro events
    exact schedStep_security_le_one events 0 (by omega)

/-- C9: `uptimePercentage` follows the spec formula
`round2((totalChecks - failedChecks) / totalChecks * 100)`, is 100 when no
check has run, and equals 70 for 10 checks with 3 failures. -/
theorem uptime_percentage_spec :
    (∀ totalChecks failedChecks : Nat,
      calculateUptime totalChecks failedChecks =
        specUptimePercentage totalChecks failedChecks) ∧
    (∀ failedChecks : Nat, calculateUptime 0 failedChecks = 100) ∧
    calculateUptime 10 3 = 70 := by
  refine ⟨fun t f => rfl, fun f => by simp [calculateUptime], ?_⟩
  norm_num [calculateUptime, toFixed2]

/-- C6: `totalChecks` grows by exactly one on every check — reachable
verdict, unreachable verdict or escaped prober exception — hence by
exactly the length of any check sequence. -/
theorem total_checks_spec (now : Int) :
    (∀ (s : MonitorState) (o : CheckOutcome),
      (checkSingleMonitor now s o).1.totalChecks = s.totalChecks + 1) ∧
    (∀ (m : MonitorState) (os : List CheckOutcome),
      (runChecks now m os).totalChecks = m.totalChecks + os.length) := by
  refine ⟨fun s o => checkSingleMonitor_totalChecks now s o, ?_⟩
  intro m os
  induction os generalizing m with
  | nil => simp [runChecks]
  | cons o rest ih =>
    have hstep : runChecks now m (o :: rest) =
        runChecks now (checkSingleMonitor now m o).1 rest := rfl
    rw [hstep, ih, checkSingleMonitor_totalChecks]
    simp
    omega

/-- C5: per check, `consecutiveFailures` resets to 0 on a reachable
verdict and increments by one on an unreachable verdict or an escaped
prober exception; consequently, starting from a fresh streak, it always
equals the length of the trailing run of unreachable outcomes. -/
theorem consecutive_failures_spec (now : Int) (m : MonitorState)
    (os : List CheckOutcome) (hm : m.consecutiveFailures = 0) :
    (∀ (s : MonitorState) (o : CheckOutcome),
      (checkSingleMonitor now s o).1.consecutiveFailures =
        if isReachable o = true then 0 else s.consecutiveFailures + 1) ∧
    (runChecks now m os).consecutiveFailures = trailingFailures os := by
  refine ⟨fun s o => checkSingleMonitor_consecutiveFailures now s o, ?_⟩
  induction os using List.reverseRecOn with
  | nil => simpa [runChecks, trailingFailures] using hm
  | append_singleton rest o ih =>
    have hstep : runChecks now m (rest ++ [o]) =
        (checkSingleMonitor now (runChecks now m rest) o).1 := by
      simp [runChecks, List.foldl_append]
    rw [hstep, checkSingleMonitor_consecutiveFailures, trailingFailures_append, ih]

/-- C5 witness: a concrete run — reachable, crash, unreachable — ends with
`consecutiveFailures` equal to its trailing failure run of length two. -/
theorem consecutive_failures_spec_witness :
    (runChecks 0 baseMonitor
      [CheckOutcome.result { success := true },
       CheckOutcome.crash "boom",
       CheckOutcome.result connRefusedVerdict]).consecutiveFailures =
      trailingFailures
        [CheckOutcome.result { success := true },
         CheckOutcome.crash "boom",
         CheckOutcome.result connRefusedVerdict] :=
  (consecutive_failures_spec 0 baseMonitor
    [CheckOutcome.result { success := true },
     CheckOutcome.crash "boom",
     CheckOutcome.result connRefusedVerdict] rfl).2

/-- C2 counterexample: the claim asserts the initial downtime alert fires
on the crossing tick regardless of whether the unreachable outcome is a
normal verdict or an exception escaping the prober pipeline.  On a monitor
with alerts enabled and one prior failure, a crossing check whose outcome
is an escaped exception raises `consecutiveFailures` from 1 to 2 but the
catch block of `checkSingleMonitor` dispatches no alert. -/
theorem downtime_alert_crash_counterexample :
    crashCrossState.alertsEnabled = true ∧
    crashCrossState.consecutiveFailures = 1 ∧
    (checkSingleMonitor 0 crashCrossState
      (CheckOutcome.crash "Unexpected end of JSON input")).1.consecutiveFailures = 2 ∧
    (checkSingleMonitor 0 crashCrossState
      (CheckOutcome.crash "Unexpected end of JSON input")).2.sentInitialDownAlert = false := by
  refine ⟨rfl, rfl, ?_, rfl⟩
  simp [checkSingleMonitor, crashCrossState, baseMonitor]

/-- C2 amended: with alerts enabled, a check whose outcome is a normal
unreachable verdict fires the initial downtime alert exactly when
`consecutiveFailures` crosses from below 2 to 2 or more (so not on the
first failure and not again while the streak stays at 2 or more), while a
check whose outcome is an exception escaping the prober pipeline never
fires it — the catch block skips the alert logic, even on the crossing
tick. -/
theorem downtime_alert_amended (now : Int) (m : MonitorState) (r : ProbeResult)
    (hr : r.success = false) (ha : m.alertsEnabled = true) :
    ((checkSingleMonitor now m (CheckOutcome.result r)).2.sentInitialDownAlert = true ↔
      (m.consecutiveFailures < 2 ∧ 2 ≤ m.consecutiveFailures + 1)) ∧
    (∀ msg,
      (checkSingleMonitor now m (CheckOutcome.crash msg)).2.sentInitialDownAlert = false) := by
  refine ⟨?_, fun msg => rfl⟩
  simp only [checkSingleMonitor, applyVerdict, applyReminder, hr, ha]
  split_ifs <;> simp_all <;> omega

/-- C2 amended, witness: at the crossing step with a refused connection
the alert fires, and the same crossing step through the catch block does
not. -/
theorem downtime_alert_amended_witness :
    ((checkSingleMonitor 0 crashCrossState
        (CheckOutcome.result connRefusedVerdict)).2.sentInitialDownAlert = true ↔
      (crashCrossState.consecutiveFailures < 2 ∧
        2 ≤ crashCrossState.consecutiveFailures + 1)) ∧
    (checkSingleMonitor 0 crashCrossState
      (CheckOutcome.crash "boom")).2.sentInitialDownAlert = false :=
  ⟨(downtime_alert_amended 0 crashCrossState connRefusedVerdict rfl rfl).1,
   (downtime_alert_amended 0 crashCrossState connRefusedVerdict rfl rfl).2 "boom"⟩


/-- Eliminating a positive `shouldSendDailyReminder` into its conditions. -/
theorem shouldSend_elim (now : Int) (s : MonitorState)
    (h : shouldSendDailyReminder now s = true) :
    s.status = MonitorStatus.offline ∧ s.alertsEnabled = true ∧
    s.alertsSentCount < 4 ∧ s.alertsSentCount ≠ 0 ∧
    ∃ t, s.lastAlertSentAt = some t ∧ 86400000 ≤ now - t := by
  simp only [shouldSendDailyReminder] at h
  split_ifs at h with h1 h2 h3 h4
  · rcases hl : s.lastAlertSentAt with _ | t <;> rw [hl] at h <;> simp at h
  · rcases hl : s.lastAlertSentAt with _ | t <;> rw [hl] at h
    · simp at h
    · exact ⟨by simpa using h1, by simpa using h2, by omega, h4, t, rfl, by simpa using h⟩

/-- No daily reminder is due when the monitor is not offline. -/
theorem shouldSend_false_not_offline (now : Int) (s : MonitorState)
    (h : s.status ≠ MonitorStatus.offline) :
    shouldSendDailyReminder now s = false := by
  simp [shouldSendDailyReminder, h]

/-- No daily reminder is due when four alerts have already been sent. -/
theorem shouldSend_false_count (now : Int) (s : MonitorState)
    (h : 4 ≤ s.alertsSentCount) :
    shouldSendDailyReminder now s = false := by
  simp only [shouldSendDailyReminder]
  split_ifs <;> simp_all

/-- No daily reminder is due when the last alert was sent this instant. -/
theorem shouldSend_false_now (now : Int) (s : MonitorState)
    (h : s.lastAlertSentAt = some now) :
    shouldSendDailyReminder now s = false := by
  simp only [shouldSendDailyReminder, h]
  split_ifs <;> simp_all

/-- A dispatched reminder implies the reminder predicate held and records
the bookkeeping writes of the reminder block. -/
theorem applyReminder_true (now : Int) (s : MonitorState)
    (h : (applyReminder now s).2 = true) :
    shouldSendDailyReminder now s = true ∧
    s.status = MonitorStatus.offline ∧
    (applyReminder now s).1.alertsSentCount = s.alertsSentCount + 1 ∧
    (applyReminder now s).1.lastAlertSentAt = some now ∧
    (applyReminder now s).1.status = s.status := by
  simp only [applyReminder] at h ⊢
  split_ifs at h ⊢ with hc
  exact ⟨hc.2, hc.1, rfl, rfl, rfl⟩

/-- The reminder block is silent when the reminder predicate fails. -/
theorem applyReminder_false (now : Int) (s : MonitorState)
    (h : shouldSendDailyReminder now s = false) :
    (applyReminder now s).2 = false := by
  simp [applyReminder, h]

/-- On a reachable verdict the monitor ends the check online. -/
theorem applyVerdict_success_status (now : Int) (m : MonitorState)
    (r : ProbeResult) (hr : r.success = true) :
    (applyVerdict now m r).1.status = MonitorStatus.online := by
  simp only [applyVerdict, hr]
  split_ifs <;> simp_all

/-- On an unreachable verdict: the monitor ends offline with the failure
streak extended, alert enablement is untouched, and the alert-bookkeeping
fields either record the initial alert just fired or keep their prior
values. -/
theorem applyVerdict_failure_fields (now : Int) (m : MonitorState)
    (r : ProbeResult) (hr : r.success = false) :
    (applyVerdict now m r).1.status = MonitorStatus.offline ∧
    (applyVerdict now m r).1.alertsEnabled = m.alertsEnabled ∧
    (applyVerdict now m r).1.consecutiveFailures = m.consecutiveFailures + 1 ∧
    ((applyVerdict now m r).2.2 = true →
      (applyVerdict now m r).1.alertsSentCount = 1 ∧
      (applyVerdict now m r).1.lastAlertSentAt = some now) ∧
    ((applyVerdict now m r).2.2 = false →
      (applyVerdict now m r).1.alertsSentCount = m.alertsSentCount ∧
      (applyVerdict now m r).1.lastAlertSentAt = m.lastAlertSentAt) := by
  simp only [applyVerdict, hr]
  split_ifs <;> simp_all

/-- C8: a daily reminder is dispatched only when the monitor ends the
check offline, fewer than 4 alerts have been sent for the episode, at
least one alert was already sent, and at least 24 hours (86400000 ms) have
elapsed since `lastAlertSentAt`; a dispatched reminder bumps
`alertsSentCount` by one and moves `lastAlertSentAt` to now; once 4 alerts
have been sent in an episode no reminder ever fires. -/
theorem daily_reminder_spec (now : Int) (m : MonitorState) (o : CheckOutcome) :
    ((checkSingleMonitor now m o).2.sentDailyReminder = true →
      (checkSingleMonitor now m o).1.status = MonitorStatus.offline ∧
      m.alertsSentCount < 4 ∧ m.alertsSentCount ≠ 0 ∧
      (∃ t, m.lastAlertSentAt = some t ∧ 86400000 ≤ now - t) ∧
      (checkSingleMonitor now m o).1.alertsSentCount = m.alertsSentCount + 1 ∧
      (checkSingleMonitor now m o).1.lastAlertSentAt = some now) ∧
    (4 ≤ m.alertsSentCount →
      (checkSingleMonitor now m o).2.sentDailyReminder = false) := by
  cases o with
  | crash msg =>
    refine ⟨fun h => absurd h ?_, fun _ => rfl⟩
    simp [checkSingleMonitor]
  | result r =>
    have e2 : (checkSingleMonitor now m (CheckOutcome.result r)).2.sentDailyReminder =
        (applyReminder now (applyVerdict now m r).1).2 := rfl
    have e1c : (checkSingleMonitor now m (CheckOutcome.result r)).1.alertsSentCount =
        (applyReminder now (applyVerdict now m r).1).1.alertsSentCount := rfl
    have e1l : (checkSingleMonitor now m (CheckOutcome.result r)).1.lastAlertSentAt =
        (applyReminder now (applyVerdict now m r).1).1.lastAlertSentAt := rfl
    have e1s : (checkSingleMonitor now m (CheckOutcome.result r)).1.status =
        (applyReminder now (applyVerdict now m r).1).1.status := rfl
    cases hr : r.success with
    | true =>
      have hst := applyVerdict_success_status now m r hr
      have hrem : (applyReminder now (applyVerdict now m r).1).2 = false :=
        applyReminder_false now _ (shouldSend_false_not_offline now _ (by rw [hst]; simp))
      refine ⟨fun h => ?_, fun _ => ?_⟩
      · rw [e2, hrem] at h; cases h
      · rw [e2, hrem]
    | false =>
      obtain ⟨hstat, hen, hcf, hfire_t, hfire_f⟩ := applyVerdict_failure_fields now m r hr
      constructor
      · intro h
        rw [e2] at h
        obtain ⟨hshould, hoff, hcount, hlast, hkeep⟩ := applyReminder_true now _ h
        have hfire : (applyVerdict now m r).2.2 = false := by
          cases hb : (applyVerdict now m r).2.2 with
          | true =>
            obtain ⟨_, hl1⟩ := hfire_t hb
            rw [shouldSend_false_now now _ hl1] at hshould
            cases hshould
          | false => rfl
        obtain ⟨hc, hl⟩ := hfire_f hfire
        obtain ⟨_, _, hlt4, hne0, t, hat, hdiff⟩ := shouldSend_elim now _ hshould
        rw [hc] at hlt4 hne0
        rw [hl] at hat
        refine ⟨?_, hlt4, hne0, ⟨t, hat, hdiff⟩, ?_, ?_⟩
        · rw [e1s, hkeep, hstat]
        · rw [e1c, hcount, hc]
        · rw [e1l, hlast]
      · intro h4
        rw [e2]
        cases hb : (applyVerdict now m r).2.2 with
        | true =>
          obtain ⟨_, hl1⟩ := hfire_t hb
          exact applyReminder_false now _ (shouldSend_false_now now _ hl1)
        | false =>
          obtain ⟨hc, _⟩ := hfire_f hb
          exact applyReminder_false now _ (shouldSend_false_count now _ (by rw [hc]; exact h4))

/-- C8 witness: an offline monitor one day past its initial alert receives
the first daily reminder; its alert counter moves to 2 and the alert stamp
to the current instant. -/
theorem daily_reminder_spec_witness :
    (checkSingleMonitor 86400005 reminderDueState
      (CheckOutcome.result connRefusedVerdict)).1.status = MonitorStatus.offline ∧
    reminderDueState.alertsSentCount < 4 ∧ reminderDueState.alertsSentCount ≠ 0 ∧
    (∃ t, reminderDueState.lastAlertSentAt = some t ∧ 86400000 ≤ 86400005 - t) ∧
    (checkSingleMonitor 86400005 reminderDueState
      (CheckOutcome.result connRefusedVerdict)).1.alertsSentCount =
      reminderDueState.alertsSentCount + 1 ∧
    (checkSingleMonitor 86400005 reminderDueState
      (CheckOutcome.result connRefusedVerdict)).1.lastAlertSentAt = some 86400005 :=
  (daily_reminder_spec 86400005 reminderDueState
    (CheckOutcome.result connRefusedVerdict)).1 (by decide)

/-- Two strings with different first characters differ. -/
theorem string_ne_of_head {a b : String} {ca cb : Char}
    (ha : a.data.head? = some ca) (hb : b.data.head? = some cb)
    (hne : ca ≠ cb) : a ≠ b := by
  intro h
  rw [h, hb] at ha
  exact hne (Option.some.inj ha).symm

/-- Every connection-level error message of the prober starts with one of
the letters R, D or C. -/
theorem fetchErrorMessage_head (timeoutSec : Nat) (e : FetchError)
    (h : ∀ s, e ≠ FetchError.otherErr s) :
    (fetchErrorMessage timeoutSec e).data.head? = some 'R' ∨
    (fetchErrorMessage timeoutSec e).data.head? = some 'D' ∨
    (fetchErrorMessage timeoutSec e).data.head? = some 'C' := by
  cases e with
  | timeoutAbort => exact Or.inl rfl
  | dnsNotFound => exact Or.inr (Or.inl rfl)
  | connRefused => exact Or.inr (Or.inr rfl)
  | connReset => exact Or.inr (Or.inr rfl)
  | connTimeout => exact Or.inr (Or.inr rfl)
  | otherErr s => exact absurd rfl (h s)

/-- C4 counterexample: the claim asserts every received HTTP response
yields `reachable=true`, with bad JSON bodies of 2xx JSON responses the
only stated exception.  A received 200 response whose content type is
`text/html` is classified `success=false` with an unsupported-content-type
detail, which the claim as stated does not allow. -/
theorem plain_http_content_type_counterexample :
    httpOk htmlResponse.status = true ∧
    (testMCPConnection 30 (Except.ok htmlResponse)).success = false ∧
    (testMCPConnection 30 (Except.ok htmlResponse)).error =
      some "Unsupported content type: text/html" := by
  decide

/-- C4 amended: every non-2xx response is `reachable=true` with an
`HTTP <status>` warning; connection-level failures are `reachable=false`
with the mapped connection detail; a 2xx JSON response whose body fails to
parse or lacks `jsonrpc = "2.0"` is `reachable=false` with a
parse/validation detail; additionally a 2xx response whose content type is
missing or not JSON is `reachable=false` (content-type detail); the
parse/validation details differ from every connection-level detail. -/
theorem plain_http_classification_amended (timeoutSec : Nat) :
    (∀ r : HttpResponse, httpOk r.status = false →
      (testMCPConnection timeoutSec (Except.ok r)).success = true ∧
      (testMCPConnection timeoutSec (Except.ok r)).warning =
        some ("HTTP " ++ toString r.status ++ ": " ++ r.statusText)) ∧
    (∀ e : FetchError,
      (testMCPConnection timeoutSec (Except.error e)).success = false ∧
      (testMCPConnection timeoutSec (Except.error e)).error =
        some (fetchErrorMessage timeoutSec e)) ∧
    (∀ r : HttpResponse, httpOk r.status = true →
      ctIncludes r.contentType "application/json" = true →
      (∀ v, r.jsonParse = Except.ok v → v ≠ some "2.0" →
        (testMCPConnection timeoutSec (Except.ok r)).success = false ∧
        (testMCPConnection timeoutSec (Except.ok r)).error =
          some "Invalid JSON-RPC response format") ∧
      (∀ msg, r.jsonParse = Except.error msg →
        (testMCPConnection timeoutSec (Except.ok r)).success = false ∧
        (testMCPConnection timeoutSec (Except.ok r)).error =
          some ("Failed to parse JSON response: " ++ msg))) ∧
    (∀ r : HttpResponse, httpOk r.status = true →
      ctIncludes r.contentType "application/json" = false →
      (testMCPConnection timeoutSec (Except.ok r)).success = false) ∧
    (∀ (m : String) (e : FetchError), (∀ s, e ≠ FetchError.otherErr s) →
      "Invalid JSON-RPC response format" ≠ fetchErrorMessage timeoutSec e ∧
      "Failed to parse JSON response: " ++ m ≠ fetchErrorMessage timeoutSec e) := by
  refine ⟨?_, fun e => ⟨rfl, rfl⟩, ?_, ?_, ?_⟩
  · intro r h
    simp [testMCPConnection, h]
  · intro r h1 h2
    constructor
    · intro v hv hne
      simp [testMCPConnection, h1, h2, hv, hne]
    · intro msg hmsg
      simp [testMCPConnection, h1, h2, hmsg]
  · intro r h1 h2
    rcases hct : r.contentType with _ | ct <;> rw [hct] at h2 <;>
      simp [testMCPConnection, h1, h2, hct]
  · intro m e he
    have hh := fetchErrorMessage_head timeoutSec e he
    constructor
    · rcases hh with h | h | h <;> exact string_ne_of_head rfl h (by decide)
    · rcases hh with h | h | h <;> exact string_ne_of_head rfl h (by decide)

/-- C4 amended, witness: a 503 is up-with-warning, a refused connection is
down, a 200 JSON body with the wrong protocol version is down, and the
validation detail differs from the refused-connection detail. -/
theorem plain_http_classification_amended_witness :
    (testMCPConnection 30 (Except.ok
      { status := 503, statusText := "Service Unavailable", contentType := none,
        jsonParse := Except.error "x" })).success = true ∧
    (testMCPConnection 30 (Except.error FetchError.connRefused)).success = false ∧
    (testMCPConnection 30 (Except.ok
      { status := 200, statusText := "OK", contentType := some "application/json",
        jsonParse := Except.ok (some "1.0") })).success = false ∧
    "Invalid JSON-RPC response format" ≠ fetchErrorMessage 30 FetchError.connRefused := by
  refine ⟨?_, ?_, ?_, ?_⟩
  · exact ((plain_http_classification_amended 30).1
      { status := 503, statusText := "Service Unavailable", contentType := none,
        jsonParse := Except.error "x" } (by decide)).1
  · exact ((plain_http_classification_amended 30).2.1 FetchError.connRefused).1
  · exact (((plain_http_classification_amended 30).2.2.1
      { status := 200, statusText := "OK", contentType := some "application/json",
        jsonParse := Except.ok (some "1.0") } (by decide) (by decide)).1
      (some "1.0") rfl (by decide)).1
  · exact ((plain_http_classification_amended 30).2.2.2.2 "x" FetchError.connRefused
      (fun s h => FetchError.noConfusion h)).1

/-- C3 counterexample: the claim asserts a 400-class `session required`
response to the initialize request yields a positive probe verdict.  The
handshake throws on every non-ok response, so the 400 rejection produces
`success=false` with error `HTTP 400: Bad Request`, and the sse-session
check on a monitor with no cached session reports the check failed. -/
theorem init_session_http400_counterexample :
    (initializeMCPSession (Except.ok sessionRequired400) (Except.ok ())).success = false ∧
    (initializeMCPSession (Except.ok sessionRequired400) (Except.ok ())).error =
      some "HTTP 400: Bad Request" ∧
    (testMCPConnectionWithTools 0 env400 [] monA).success = false := by
  decide

/-- C3 amended: on the sse-session path any non-2xx initialize response —
including the 400-class `session required` rejections — makes the
handshake fail with detail `HTTP <status>: <statusText>` rather than count
as a positive signal, and when no session is cached the failed handshake
makes the whole check report `reachable=false` with that detail. -/
theorem init_session_non_ok_amended (r : InitHttpResponse) (nf : Except String Unit)
    (h : httpOk r.status = false) :
    (initializeMCPSession (Except.ok r) nf).success = false ∧
    (initializeMCPSession (Except.ok r) nf).error =
      some ("HTTP " ++ toString r.status ++ ": " ++ r.statusText) ∧
    (∀ (now : Int) (env : SessionEnv) (c : SessionCache) (mon : MonitorConn),
      (getSession now c (some mon.id)).1 = none →
      env.init1.success = false →
      (testMCPConnectionWithTools now env c mon).success = false ∧
      (testMCPConnectionWithTools now env c mon).error =
        some (jsOrDefault env.init1.error "Failed to initialize MCP session")) := by
  refine ⟨?_, ?_, ?_⟩
  · simp [initializeMCPSession, h]
  · simp [initializeMCPSession, h]
  · intro now env c mon hg hi
    simp [testMCPConnectionWithTools, hg, hi]

/-- C3 amended, witness: the concrete 400 `session required` rejection
fails the handshake and the check of a session-less monitor. -/
theorem init_session_non_ok_amended_witness :
    (initializeMCPSession (Except.ok sessionRequired400) (Except.ok ())).success = false ∧
    (initializeMCPSession (Except.ok sessionRequired400) (Except.ok ())).error =
      some ("HTTP " ++ toString sessionRequired400.status ++ ": " ++
        sessionRequired400.statusText) ∧
    ((testMCPConnectionWithTools 0 env400 [] monA).success = false ∧
     (testMCPConnectionWithTools 0 env400 [] monA).error =
       some (jsOrDefault env400.init1.error "Failed to initialize MCP session")) :=
  ⟨(init_session_non_ok_amended sessionRequired400 (Except.ok ()) rfl).1,
   (init_session_non_ok_amended sessionRequired400 (Except.ok ()) rfl).2.1,
   (init_session_non_ok_amended sessionRequired400 (Except.ok ()) rfl).2.2
     0 env400 [] monA rfl rfl⟩

/-- Invariant of the retry loop from any attempt index within bounds: the
loop uses between `attempt` and `maxA` attempts, returns the verdict of
the last attempt made, saw only failures strictly before it, exhausts the
budget whenever the final verdict is a failure, and sleeps the back-off
delay of every attempt except the last. -/
theorem retryGo_spec (prober : Nat → ProbeResult) (maxA : Nat) :
    ∀ (n attempt : Nat), maxA - attempt = n → 1 ≤ attempt → attempt ≤ maxA →
      attempt ≤ (retryGo prober maxA attempt).attempts ∧
      (retryGo prober maxA attempt).attempts ≤ maxA ∧
      (retryGo prober maxA attempt).result =
        prober (retryGo prober maxA attempt).attempts ∧
      (∀ i, attempt ≤ i → i < (retryGo prober maxA attempt).attempts →
        (prober i).success = false) ∧
      ((retryGo prober maxA attempt).result.success = false →
        (retryGo prober maxA attempt).attempts = maxA) ∧
      (retryGo prober maxA attempt).delays =
        (List.range' attempt ((retryGo prober maxA attempt).attempts - attempt)).map
          backoffDelay := by
  intro n
  induction n with
  | zero =>
    intro attempt h0 h1 h2
    have ha : attempt = maxA := by omega
    have hnl : ¬ attempt < maxA := by omega
    cases hs : (prober attempt).success with
    | true =>
      have hR : retryGo prober maxA attempt = ⟨prober attempt, attempt, []⟩ := by
        rw [retryGo]; simp [hs]
      have hA : (retryGo prober maxA attempt).attempts = attempt := by rw [hR]
      have hRes : (retryGo prober maxA attempt).result = prober attempt := by rw [hR]
      have hD : (retryGo prober maxA attempt).delays = [] := by rw [hR]
      rw [hRes, hA, hD]
      exact ⟨le_refl _, h2, rfl, fun i hi1 hi2 => absurd hi2 (by omega),
        fun _ => ha, by simp⟩
    | false =>
      have hR : retryGo prober maxA attempt = ⟨prober attempt, maxA, []⟩ := by
        rw [retryGo]; simp [hs, hnl]
      have hA : (retryGo prober maxA attempt).attempts = maxA := by rw [hR]
      have hRes : (retryGo prober maxA attempt).result = prober attempt := by rw [hR]
      have hD : (retryGo prober maxA attempt).delays = [] := by rw [hR]
      rw [hRes, hA, hD]
      exact ⟨h2, le_refl _, by rw [ha], fun i hi1 hi2 => absurd hi2 (by omega),
        fun _ => rfl, by simp [ha]⟩
  | succ n ih =>
    intro attempt h0 h1 h2
    cases hs : (prober attempt).success with
    | true =>
      have hR : retryGo prober maxA attempt = ⟨prober attempt, attempt, []⟩ := by
        rw [retryGo]; simp [hs]
      have hA : (retryGo prober maxA attempt).attempts = attempt := by rw [hR]
      have hRes : (retryGo prober maxA attempt).result = prober attempt := by rw [hR]
      have hD : (retryGo prober maxA attempt).delays = [] := by rw [hR]
      rw [hRes, hA, hD]
      exact ⟨le_refl _, h2, rfl, fun i hi1 hi2 => absurd hi2 (by omega),
        fun hf => absurd hf (by simp [hs]), by simp⟩
    | false =>
      have hlt : attempt < maxA := by omega
      have hR : retryGo prober maxA attempt =
          ⟨(retryGo prober maxA (attempt + 1)).result,
           (retryGo prober maxA (attempt + 1)).attempts,
           backoffDelay attempt :: (retryGo prober maxA (attempt + 1)).delays⟩ := by
        rw [retryGo]; simp [hs, hlt]
      have hA : (retryGo prober maxA attempt).attempts =
          (retryGo prober maxA (attempt + 1)).attempts := by rw [hR]
      have hRes : (retryGo prober maxA attempt).result =
          (retryGo prober maxA (attempt + 1)).result := by rw [hR]
      have hD : (retryGo prober maxA attempt).delays =
          backoffDelay attempt :: (retryGo prober maxA (attempt + 1)).delays := by rw [hR]
      rw [hRes, hA, hD]
      obtain ⟨ih1, ih2, ih3, ih4, ih5, ih6⟩ :=
        ih (attempt + 1) (by omega) (by omega) (by omega)
      refine ⟨by omega, ih2, ih3, ?_, ih5, ?_⟩
      · intro i hi1 hi2
        rcases Nat.eq_or_lt_of_le hi1 with he | hl
        · exact he ▸ hs
        · exact ih4 i (by omega) hi2
      · have hd : (retryGo prober maxA (attempt + 1)).attempts - attempt =
            ((retryGo prober maxA (attempt + 1)).attempts - (attempt + 1)) + 1 := by
          omega
        rw [ih6, hd, List.range'_succ, List.map_cons]

/-- C7: the retry wrapper makes at most `retryAttempts` sequential prober
calls, stops at the first success, returns the verdict of the last attempt
together with the number of attempts used, exhausts the budget whenever
the final verdict is a failure, and sleeps
`backoffDelay a = min(1000 * 2^(a-1), 5000)` after every attempt `a`
except the last (1s, 2s, 4s, then capped at 5s); in particular with
`retryAttempts = 3` and an always-failing prober it makes exactly 3
attempts, sleeping 1s then 2s, and returns the third verdict. -/
theorem retry_wrapper_spec (prober : Nat → ProbeResult) (retryAttempts : Nat)
    (h : 1 ≤ retryAttempts) :
    1 ≤ (testMCPConnectionWithRetry prober retryAttempts).attempts ∧
    (testMCPConnectionWithRetry prober retryAttempts).attempts ≤ retryAttempts ∧
    (testMCPConnectionWithRetry prober retryAttempts).result =
      prober (testMCPConnectionWithRetry prober retryAttempts).attempts ∧
    (∀ i, 1 ≤ i → i < (testMCPConnectionWithRetry prober retryAttempts).attempts →
      (prober i).success = false) ∧
    ((testMCPConnectionWithRetry prober retryAttempts).result.success = false →
      (testMCPConnectionWithRetry prober retryAttempts).attempts = retryAttempts) ∧
    (testMCPConnectionWithRetry prober retryAttempts).delays =
      (List.range' 1 ((testMCPConnectionWithRetry prober retryAttempts).attempts - 1)).map
        backoffDelay ∧
    backoffDelay 1 = 1000 ∧ backoffDelay 2 = 2000 ∧ backoffDelay 3 = 4000 ∧
    (∀ a, 4 ≤ a → backoffDelay a = 5000) ∧
    (∀ p : Nat → ProbeResult, (∀ i, (p i).success = false) →
      (testMCPConnectionWithRetry p 3).attempts = 3 ∧
      (testMCPConnectionWithRetry p 3).result = p 3 ∧
      (testMCPConnectionWithRetry p 3).delays = [1000, 2000]) := by
  have hmax : (if retryAttempts = 0 then 3 else retryAttempts) = retryAttempts := by
    rw [if_neg (by omega)]
  have hspec := retryGo_spec prober retryAttempts (retryAttempts - 1) 1 (by omega)
    (le_refl _) h
  have hunfold : testMCPConnectionWithRetry prober retryAttempts =
      retryGo prober retryAttempts 1 := by
    rw [testMCPConnectionWithRetry, hmax]
  rw [hunfold]
  obtain ⟨s1, s2, s3, s4, s5, s6⟩ := hspec
  refine ⟨s1, s2, s3, s4, s5, s6, rfl, rfl, rfl, ?_, ?_⟩
  · intro a ha
    have h8 : (8 : Nat) ≤ 2 ^ (a - 1) := by
      calc (8 : Nat) = 2 ^ 3 := rfl
      _ ≤ 2 ^ (a - 1) := Nat.pow_le_pow_right (by omega) (by omega)
    simp only [backoffDelay]
    omega
  · intro p hp
    have hq := retryGo_spec p 3 2 1 rfl (le_refl _) (by omega)
    obtain ⟨q1, q2, q3, q4, q5, q6⟩ := hq
    have hu3 : testMCPConnectionWithRetry p 3 = retryGo p 3 1 := rfl
    have hatt : (retryGo p 3 1).attempts = 3 := by
      refine q5 ?_
      rw [q3]
      exact hp _
    refine ⟨by rw [hu3, hatt], by rw [hu3, q3, hatt], ?_⟩
    rw [hu3, q6, hatt]
    decide

/-- C7 witness: with three attempts allowed and a prober that always
reports a refused connection, the wrapper uses exactly 3 attempts,
sleeping 1s then 2s, and returns the failing verdict. -/
theorem retry_wrapper_spec_witness :
    1 ≤ (testMCPConnectionWithRetry (fun _ => connRefusedVerdict) 3).attempts ∧
    (testMCPConnectionWithRetry (fun _ => connRefusedVerdict) 3).attempts = 3 ∧
    (testMCPConnectionWithRetry (fun _ => connRefusedVerdict) 3).result =
      connRefusedVerdict ∧
    (testMCPConnectionWithRetry (fun _ => connRefusedVerdict) 3).delays =
      [1000, 2000] := by
  have h := retry_wrapper_spec (fun _ => connRefusedVerdict) 3 (by omega)
  have hc := h.2.2.2.2.2.2.2.2.2.2 (fun _ => connRefusedVerdict) (fun i => rfl)
  exact ⟨h.1, hc.1, hc.2.1, hc.2.2⟩

/-- Deleting the binding of a key makes its lookup miss. -/
theorem findEntry_removeEntry_self (cache : SessionCache) (id : String) :
    findEntry (removeEntry cache id) id = none := by
  induction cache with
  | nil => rfl
  | cons p rest ih =>
    obtain ⟨k, entry⟩ := p
    simp only [removeEntry]
    split_ifs with hk
    · exact ih
    · simp [findEntry, hk, ih]

/-- Entered with the handshake flag set and no cached entry for the
monitor, the tool-discovery phase reports a handshake and — when the
re-handshake carries no session id — leaves the monitor uncached. -/
theorem toolsPhase_no_session (now : Int) (e : SessionEnv) (mon : MonitorConn)
    (sid : Option String) (cache : SessionCache)
    (h2 : e.init2.sessionId = none)
    (hc : findEntry cache mon.id = none) :
    (toolsPhase now e mon sid cache true).didHandshake = true ∧
    findEntry (toolsPhase now e mon sid cache true).cache mon.id = none := by
  simp only [toolsPhase]
  split_ifs <;>
    simp_all [clearSession, setSession, strFalsy, findEntry_removeEntry_self]

/-- One sse-session check of a monitor with no cached entry performs a
handshake, and when no handshake of the check yields a session id the
monitor remains uncached. -/
theorem toolsCheck_no_session_step (now : Int) (mon : MonitorConn)
    (cache : SessionCache) (e : SessionEnv)
    (h1 : e.init1.sessionId = none) (h2 : e.init2.sessionId = none)
    (hc : findEntry cache mon.id = none) :
    (testMCPConnectionWithTools now e cache mon).didHandshake = true ∧
    findEntry (testMCPConnectionWithTools now e cache mon).cache mon.id = none := by
  have hg : getSession now cache (some mon.id) = (none, cache) := by
    simp [getSession, hc]
  have hset : ∀ caps, setSession now cache (some mon.id) e.init1.sessionId caps
      (some mon.url) SESSION_TTL = cache := by
    intro caps
    simp [setSession, h1, strFalsy]
  cases hi : e.init1.success with
  | false =>
    simp [testMCPConnectionWithTools, hg, hi, hc]
  | true =>
    have hu : testMCPConnectionWithTools now e cache mon =
        toolsPhase now e mon e.init1.sessionId cache true := by
      simp [testMCPConnectionWithTools, hg, hi, hset]
    rw [hu]
    exact toolsPhase_no_session now e mon e.init1.sessionId cache h2 hc

/-- C10: `setSession` with a null session id leaves the session cache
completely unchanged; consequently an sse-session monitor whose successful
handshakes never yield a session id is never cached, and every one of its
scheduled checks performs a full initialize handshake again. -/
theorem session_cache_null_sid_spec :
    (∀ (now : Int) (cache : SessionCache) (monitorId : Option String)
        (caps url : Option String) (ttl : Int),
      setSession now cache monitorId none caps url ttl = cache) ∧
    (∀ (now : Int) (mon : MonitorConn) (envs : List SessionEnv)
        (cache : SessionCache),
      (∀ e ∈ envs, e.init1.sessionId = none ∧ e.init2.sessionId = none) →
      findEntry cache mon.id = none →
      findEntry (runToolsChecks now mon cache envs).1 mon.id = none ∧
      (runToolsChecks now mon cache envs).2 = List.replicate envs.length true) := by
  constructor
  · intro now cache monitorId caps url ttl
    simp [setSession, strFalsy]
  · intro now mon envs
    induction envs with
    | nil =>
      intro cache _ hc
      exact ⟨hc, rfl⟩
    | cons e rest ih =>
      intro cache hall hc
      obtain ⟨he1, he2⟩ := hall e (List.mem_cons_self _ _)
      obtain ⟨hdh, hcache⟩ := toolsCheck_no_session_step now mon cache e he1 he2 hc
      obtain ⟨ihc, ihf⟩ :=
        ih (testMCPConnectionWithTools now e cache mon).cache
          (fun x hx => hall x (List.mem_cons_of_mem _ hx)) hcache
      refine ⟨ihc, ?_⟩
      simp only [runToolsChecks] at ihf ⊢
      rw [ihf, hdh, List.length_cons, List.replicate_succ]

/-- C10 witness: on an empty cache, a null-session-id `setSession` is a
no-op, and one check of a monitor whose handshake yields no session id
performs the handshake and leaves the monitor uncached. -/
theorem session_cache_null_sid_spec_witness :
    setSession 0 [] (some "m1") none (some "caps")
      (some "https://example.com/mcp") SESSION_TTL = ([] : SessionCache) ∧
    (findEntry (runToolsChecks 0 monA [] [envNoSid]).1 monA.id = none ∧
      (runToolsChecks 0 monA [] [envNoSid]).2 = List.replicate 1 true) :=
  ⟨session_cache_null_sid_spec.1 0 [] (some "m1") (some "caps")
      (some "https://example.com/mcp") SESSION_TTL,
   session_cache_null_sid_spec.2 0 monA [envNoSid] []
     (by intro e he
         rw [List.mem_singleton] at he
         subst he
         exact ⟨rfl, rfl⟩)
     rfl⟩
